import Mathlib

/-!
Shallow embedding of the SIEM-Dashboard core (src/app.py) and proofs about
its detection engine, ingestion path and stores.

Modelling conventions, chosen to mirror the source faithfully:

* Timestamps are modelled as `Int` instants (seconds).  The source stores
  ISO-8601 strings with a trailing "Z" and compares them with SQLite TEXT
  (byte-wise) `>=`, which agrees with chronological order for the uniform
  format the code always writes; `datetime.timedelta(minutes=2)` and
  `(seconds=60)` become the integer offsets 120 and 60.
* SQLite rows become structures.  Nullable columns become `Option` fields.
  `(row["severity"] or "")` is `Option.getD _ ""`; Python truthiness of a
  nullable string (`if src_ip:`) is `truthy`; an f-string interpolation of
  a possibly-`None` value is `pyOptStr` (Python renders `None` as "None").
* `SELECT COUNT(*) ... WHERE` becomes `List.filter`/`List.length`;
  `COUNT(DISTINCT dst_port)` skips NULLs and dedups, as SQL does.
  SQLite `LIKE '%fail%'` is case-insensitive on ASCII, hence `likeCI`.
* AUTOINCREMENT ids for `logs` start at 1 and are tracked by `nextLogId`;
  alert and packet ids are never read by any code under study and are
  omitted from their records.
* `lat`/`lon` are floating point columns never read by the detection
  engine or any property under study; they are omitted from the model.
-/

/-- One row of the `logs` table (columns the program reads). -/
structure LogRecord where
  id : Nat
  timestamp : Int
  source : Option String
  event_type : Option String
  severity : Option String
  message : Option String
  src_ip : Option String
  country : Option String
  deriving Repr, DecidableEq

/-- One row of the `packets` table (columns the program reads). -/
structure PacketRecord where
  timestamp : Int
  src_ip : Option String
  dst_ip : Option String
  proto : Option String
  dst_port : Option Int
  length : Option Int
  deriving Repr, DecidableEq

/-- One row of the `alerts` table (columns the program writes/reads). -/
structure AlertRecord where
  log_id : Nat
  created_at : Int
  rule : String
  severity : String
  message : String
  deriving Repr, DecidableEq

/-- One row of the `threat_intel` table. -/
structure ThreatIntelEntry where
  ip : String
  tag : String
  deriving Repr, DecidableEq

/-- The database state: the four tables plus the next `logs` AUTOINCREMENT id. -/
structure DBState where
  logs : List LogRecord
  alerts : List AlertRecord
  packets : List PacketRecord
  threat_intel : List ThreatIntelEntry
  nextLogId : Nat
  deriving Repr, DecidableEq

/-- Python truthiness of a nullable string: `None` and `""` are falsy. -/
def truthy : Option String → Bool
  | none => false
  | some s => !(s == "")

/-- Python f-string rendering of a possibly-None value (`None` prints as "None"). -/
def pyOptStr : Option String → String
  | none => "None"
  | some s => s

/-- Python `str.lower()` as the program uses it (ASCII letter folding):
lowercase every character.  `Char.toLower` maps exactly the basic latin
uppercase letters; defined by a plain `List.map` so the kernel can
evaluate it. -/
def lowerStr (s : String) : String :=
  ⟨s.data.map Char.toLower⟩

/-- Does `hay` start with `needle` (character lists)? -/
def headMatches : List Char → List Char → Bool
  | _, [] => true
  | [], _ :: _ => false
  | c :: t, n :: m => c == n && headMatches t m

/-- Does `hay` contain `needle` as a contiguous run (character lists)? -/
def containsChars : List Char → List Char → Bool
  | [], needle => needle.isEmpty
  | c :: t, needle => headMatches (c :: t) needle || containsChars t needle

/-- Substring containment on strings. -/
def strContains (s pat : String) : Bool :=
  containsChars s.toList pat.toList

/-- SQLite `s LIKE '%pat%'` for an ASCII lowercase `pat`: LIKE is
case-insensitive on ASCII, so lowercase `s` and look for `pat`. -/
def likeCI (s pat : String) : Bool :=
  strContains (lowerStr s) pat

/-- The `(event_type LIKE '%fail%' OR event_type LIKE '%login%')` disjunct of
the brute-force query; a NULL column never matches LIKE. -/
def isFailOrLogin : Option String → Bool
  | none => false
  | some s => likeCI s "fail" || likeCI s "login"

/-- `SELECT COUNT(*) FROM logs WHERE src_ip = ? AND timestamp >= ? AND
(event_type LIKE '%fail%' OR event_type LIKE '%login%')`. -/
def bruteForceCount (logs : List LogRecord) (ip : String) (window : Int) : Nat :=
  (logs.filter (fun r =>
    r.src_ip == some ip && decide (window ≤ r.timestamp) && isFailOrLogin r.event_type)).length

/-- `SELECT COUNT(DISTINCT dst_port) FROM packets WHERE src_ip = ? AND
timestamp >= ?` — NULL ports are not counted, duplicates collapse. -/
def distinctPortCount (packets : List PacketRecord) (ip : String) (window : Int) : Nat :=
  (((packets.filter (fun p =>
      p.src_ip == some ip && decide (window ≤ p.timestamp))).filterMap
      (fun p => p.dst_port)).dedup).length

/-- `SELECT * FROM logs WHERE id = ?` with `fetchone`. -/
def findLog (logs : List LogRecord) (log_id : Nat) : Option LogRecord :=
  logs.find? (fun r => r.id == log_id)

/-- `INSERT INTO alerts (log_id, created_at, rule, severity, message) VALUES (...)`. -/
def insertAlert (st : DBState) (log_id : Nat) (created_at : Int)
    (rule severity message : String) : DBState :=
  { st with alerts := st.alerts ++ [⟨log_id, created_at, rule, severity, message⟩] }

/-- `run_detection_on_log(conn, log_id)` from src/app.py, with the wall clock
`now` passed explicitly (the source reads `datetime.datetime.utcnow()`).
Reads the log row; if absent, returns with no change.  Otherwise runs the
three rules in source order: critical severity, brute force over the last
2 minutes, port scan over packets of the last 60 seconds. -/
def run_detection_on_log (st : DBState) (now : Int) (log_id : Nat) : DBState :=
  match findLog st.logs log_id with
  | none => st
  | some row =>
    let severity := lowerStr (row.severity.getD "")
    let evtype := lowerStr (row.event_type.getD "")
    let src_ip := row.src_ip
    -- Immediate critical
    let st1 := if severity == "critical" then
        insertAlert st log_id now "critical_sev" "Critical"
          ("Critical event: " ++ evtype ++ " from " ++ pyOptStr src_ip)
      else st
    -- Brute force heuristic: last 2 minutes
    let st2 := if truthy src_ip then
        let ip := src_ip.getD ""
        let window := now - 120
        let cnt := bruteForceCount st1.logs ip window
        if 5 ≤ cnt then
          insertAlert st1 log_id now "brute_force" "Medium"
            (toString cnt ++ " failed/login events from " ++ ip ++ " in 2 minutes")
        else st1
      else st1
    -- Port scan heuristic: distinct dst ports in last 60s
    let st3 := if truthy src_ip then
        let ip := src_ip.getD ""
        let window_pkt := now - 60
        let pcount := distinctPortCount st2.packets ip window_pkt
        if 10 ≤ pcount then
          insertAlert st2 log_id now "port_scan" "High"
            ("Port scan: " ++ toString pcount ++ " distinct dst ports from " ++ ip ++ " in 60s")
        else st2
      else st2
    st3

/-- One ingestion input object `{timestamp?, source, event_type, severity,
message, src_ip?, ...}` as read by `api_upload` via `r.get(...)`. -/
structure InputRecord where
  timestamp : Option Int
  source : Option String
  event_type : Option String
  severity : Option String
  message : Option String
  src_ip : Option String
  country : Option String
  deriving Repr, DecidableEq

/-- The row `api_upload` inserts for input `r` with assigned id `lid`:
`ts = r.get("timestamp") or utcnow()` then `INSERT INTO logs ...`. -/
def recordToLog (r : InputRecord) (lid : Nat) (now : Int) : LogRecord :=
  ⟨lid, r.timestamp.getD now, r.source, r.event_type, r.severity, r.message,
   r.src_ip, r.country⟩

/-- The log-append step of `api_upload`: insert the row, return the state and
`cur.lastrowid`. -/
def appendLog (st : DBState) (r : InputRecord) (now : Int) : DBState × Nat :=
  let lid := st.nextLogId
  ({ st with logs := st.logs ++ [recordToLog r lid now], nextLogId := lid + 1 }, lid)

/-- One iteration of the `for r in rows:` loop of `api_upload`: append the
log, run detection on it, report the assigned id. -/
def ingestOne (st : DBState) (now : Int) (r : InputRecord) : DBState × Nat :=
  let p := appendLog st r now
  (run_detection_on_log p.1 now p.2, p.2)

/-- One pass of the `for r in rows:` loop of `api_upload`, threading the
state and the `inserted` accumulator. -/
def uploadStep (now : Int) (acc : DBState × List Nat) (r : InputRecord) :
    DBState × List Nat :=
  let p := ingestOne acc.1 now r
  (p.1, acc.2 ++ [p.2])

/-- The record loop of `api_upload` over an already-parsed list of rows:
each row is appended and evaluated in order and its id accumulated into
`inserted`, which the endpoint returns. -/
def api_upload (st : DBState) (now : Int) (rows : List InputRecord) :
    DBState × List Nat :=
  rows.foldl (uploadStep now) (st, [])

/-- `INSERT INTO packets ...` as done by producers (background generator). -/
def insertPacket (st : DBState) (p : PacketRecord) : DBState :=
  { st with packets := st.packets ++ [p] }

/-- The database right after `init_db()`: empty tables, first log id 1. -/
def initialState : DBState :=
  ⟨[], [], [], [], 1⟩

/-! ### Helper lemmas: frames and a characterization of the detection run -/

@[simp] theorem insertAlert_logs (st : DBState) (l : Nat) (n : Int) (r s m : String) :
    (insertAlert st l n r s m).logs = st.logs := rfl

@[simp] theorem insertAlert_packets (st : DBState) (l : Nat) (n : Int) (r s m : String) :
    (insertAlert st l n r s m).packets = st.packets := rfl

@[simp] theorem insertAlert_threat_intel (st : DBState) (l : Nat) (n : Int) (r s m : String) :
    (insertAlert st l n r s m).threat_intel = st.threat_intel := rfl

@[simp] theorem insertAlert_nextLogId (st : DBState) (l : Nat) (n : Int) (r s m : String) :
    (insertAlert st l n r s m).nextLogId = st.nextLogId := rfl

@[simp] theorem insertAlert_alerts (st : DBState) (l : Nat) (n : Int) (r s m : String) :
    (insertAlert st l n r s m).alerts = st.alerts ++ [⟨l, n, r, s, m⟩] := rfl

/-- Alerts the critical_sev rule emits for row `row`. -/
def critAlertsOf (row : LogRecord) (now : Int) (log_id : Nat) : List AlertRecord :=
  if lowerStr (row.severity.getD "") == "critical" then
    [⟨log_id, now, "critical_sev", "Critical",
      "Critical event: " ++ lowerStr (row.event_type.getD "") ++ " from " ++ pyOptStr row.src_ip⟩]
  else []

/-- Alerts the brute-force rule emits for row `row` against log table `logs`. -/
def bfAlertsOf (logs : List LogRecord) (row : LogRecord) (now : Int) (log_id : Nat) :
    List AlertRecord :=
  if truthy row.src_ip then
    if 5 ≤ bruteForceCount logs (row.src_ip.getD "") (now - 120) then
      [⟨log_id, now, "brute_force", "Medium",
        toString (bruteForceCount logs (row.src_ip.getD "") (now - 120)) ++
          " failed/login events from " ++ row.src_ip.getD "" ++ " in 2 minutes"⟩]
    else []
  else []

/-- Alerts the port-scan rule emits for row `row` against packet table `packets`. -/
def psAlertsOf (packets : List PacketRecord) (row : LogRecord) (now : Int) (log_id : Nat) :
    List AlertRecord :=
  if truthy row.src_ip then
    if 10 ≤ distinctPortCount packets (row.src_ip.getD "") (now - 60) then
      [⟨log_id, now, "port_scan", "High",
        "Port scan: " ++ toString (distinctPortCount packets (row.src_ip.getD "") (now - 60)) ++
          " distinct dst ports from " ++ row.src_ip.getD "" ++ " in 60s"⟩]
    else []
  else []

theorem run_detection_not_found (st : DBState) (now : Int) (lid : Nat)
    (h : findLog st.logs lid = none) :
    run_detection_on_log st now lid = st := by
  unfold run_detection_on_log
  rw [h]

theorem run_detection_found (st : DBState) (now : Int) (lid : Nat) (row : LogRecord)
    (h : findLog st.logs lid = some row) :
    run_detection_on_log st now lid =
      { st with alerts := st.alerts ++ critAlertsOf row now lid
          ++ bfAlertsOf st.logs row now lid ++ psAlertsOf st.packets row now lid } := by
  unfold run_detection_on_log
  rw [h]
  simp only [critAlertsOf, bfAlertsOf, psAlertsOf]
  by_cases hc : lowerStr (row.severity.getD "") == "critical" <;>
    by_cases ht : truthy row.src_ip <;>
      by_cases hb : 5 ≤ bruteForceCount st.logs (row.src_ip.getD "") (now - 120) <;>
        by_cases hp : 10 ≤ distinctPortCount st.packets (row.src_ip.getD "") (now - 60) <;>
          simp [hc, ht, hb, hp, insertAlert]

/-- Predicate selecting the alerts of one rule. -/
def isRule (r : String) (a : AlertRecord) : Bool := a.rule == r

theorem crit_filter_other (row : LogRecord) (now : Int) (lid : Nat) (r : String)
    (hr : r ≠ "critical_sev") :
    (critAlertsOf row now lid).filter (isRule r) = [] := by
  unfold critAlertsOf
  split
  · simp only [List.filter_cons, List.filter_nil, isRule, beq_iff_eq]
    rw [if_neg (fun e => hr e.symm)]
  · rfl

theorem bf_filter_other (logs : List LogRecord) (row : LogRecord) (now : Int) (lid : Nat)
    (r : String) (hr : r ≠ "brute_force") :
    (bfAlertsOf logs row now lid).filter (isRule r) = [] := by
  unfold bfAlertsOf
  split
  · split
    · simp only [List.filter_cons, List.filter_nil, isRule, beq_iff_eq]
      rw [if_neg (fun e => hr e.symm)]
    · rfl
  · rfl

theorem ps_filter_other (packets : List PacketRecord) (row : LogRecord) (now : Int) (lid : Nat)
    (r : String) (hr : r ≠ "port_scan") :
    (psAlertsOf packets row now lid).filter (isRule r) = [] := by
  unfold psAlertsOf
  split
  · split
    · simp only [List.filter_cons, List.filter_nil, isRule, beq_iff_eq]
      rw [if_neg (fun e => hr e.symm)]
    · rfl
  · rfl

theorem crit_filter_own (row : LogRecord) (now : Int) (lid : Nat) :
    (critAlertsOf row now lid).filter (isRule "critical_sev") = critAlertsOf row now lid := by
  unfold critAlertsOf
  split
  · simp [isRule]
  · rfl

theorem bf_filter_own (logs : List LogRecord) (row : LogRecord) (now : Int) (lid : Nat) :
    (bfAlertsOf logs row now lid).filter (isRule "brute_force") = bfAlertsOf logs row now lid := by
  unfold bfAlertsOf
  split
  · split
    · simp [isRule]
    · rfl
  · rfl

theorem ps_filter_own (packets : List PacketRecord) (row : LogRecord) (now : Int) (lid : Nat) :
    (psAlertsOf packets row now lid).filter (isRule "port_scan") = psAlertsOf packets row now lid := by
  unfold psAlertsOf
  split
  · split
    · simp [isRule]
    · rfl
  · rfl

/-- The critical_sev alerts the detection run appends for a found row. -/
theorem detection_crit_filter (st : DBState) (now : Int) (lid : Nat) (row : LogRecord)
    (hfind : findLog st.logs lid = some row) :
    (run_detection_on_log st now lid).alerts.filter (isRule "critical_sev") =
      st.alerts.filter (isRule "critical_sev") ++ critAlertsOf row now lid := by
  rw [run_detection_found st now lid row hfind]
  simp [List.filter_append, crit_filter_own, bf_filter_other, ps_filter_other]

/-- The brute_force alerts the detection run appends for a found row. -/
theorem detection_bf_filter (st : DBState) (now : Int) (lid : Nat) (row : LogRecord)
    (hfind : findLog st.logs lid = some row) :
    (run_detection_on_log st now lid).alerts.filter (isRule "brute_force") =
      st.alerts.filter (isRule "brute_force") ++ bfAlertsOf st.logs row now lid := by
  rw [run_detection_found st now lid row hfind]
  simp [List.filter_append, bf_filter_own, crit_filter_other, ps_filter_other]

/-- The port_scan alerts the detection run appends for a found row. -/
theorem detection_ps_filter (st : DBState) (now : Int) (lid : Nat) (row : LogRecord)
    (hfind : findLog st.logs lid = some row) :
    (run_detection_on_log st now lid).alerts.filter (isRule "port_scan") =
      st.alerts.filter (isRule "port_scan") ++ psAlertsOf st.packets row now lid := by
  rw [run_detection_found st now lid row hfind]
  simp [List.filter_append, ps_filter_own, crit_filter_other, bf_filter_other]

/-- C6: when no LogRecord can be read back for `log_id`, the detection run
returns with the whole database state unchanged â no alert is appended, no
log removed, nothing retried. -/
theorem c6_missing_log_is_noop (st : DBState) (now : Int) (lid : Nat)
    (h : findLog st.logs lid = none) :
    run_detection_on_log st now lid = st :=
  run_detection_not_found st now lid h

/-- C6 witness: detection on an absent id over the fresh database is a no-op. -/
theorem c6_missing_log_is_noop_witness :
    run_detection_on_log initialState 0 7 = initialState :=
  c6_missing_log_is_noop initialState 0 7 (by rfl)

/-- C3: for a readable row whose severity is one of the four enum values,
the detection run appends exactly one critical_sev alert â with severity
"Critical" and log_id equal to the row's id â when the severity is
"Critical", and appends no critical_sev alert otherwise. -/
theorem c3_critical_sev_iff_enum (st : DBState) (now : Int) (lid : Nat) (row : LogRecord)
    (hfind : findLog st.logs lid = some row)
    (hsev : row.severity = some "Low" ∨ row.severity = some "Medium" ∨
            row.severity = some "High" ∨ row.severity = some "Critical") :
    (run_detection_on_log st now lid).alerts.filter (isRule "critical_sev") =
      st.alerts.filter (isRule "critical_sev") ++
        (if row.severity = some "Critical" then
          [⟨lid, now, "critical_sev", "Critical",
            "Critical event: " ++ lowerStr (row.event_type.getD "") ++ " from " ++
              pyOptStr row.src_ip⟩]
         else []) := by
  rw [detection_crit_filter st now lid row hfind]
  unfold critAlertsOf
  rcases hsev with h | h | h | h <;> rw [h]
  · rw [if_neg (by decide), if_neg (by decide)]
  · rw [if_neg (by decide), if_neg (by decide)]
  · rw [if_neg (by decide), if_neg (by decide)]
  · rw [if_pos (by decide), if_pos rfl]

/-- C3 witness: a severity "Critical" log yields exactly the critical_sev
alert, at a concrete input. -/
theorem c3_critical_sev_iff_enum_witness :
    (run_detection_on_log
        ⟨[⟨1, 0, some "IDS", some "Malware Detected", some "Critical",
           some "Malware match", none, none⟩], [], [], [], 2⟩ 5 1).alerts.filter
        (isRule "critical_sev") =
      [⟨1, 5, "critical_sev", "Critical", "Critical event: malware detected from None"⟩] := by
  have h := c3_critical_sev_iff_enum
    ⟨[⟨1, 0, some "IDS", some "Malware Detected", some "Critical",
       some "Malware match", none, none⟩], [], [], [], 2⟩ 5 1
    ⟨1, 0, some "IDS", some "Malware Detected", some "Critical",
     some "Malware match", none, none⟩ (by rfl) (by simp)
  rw [if_pos (by rfl)] at h
  simpa using h

/-- C10: the critical_sev rule matches severity by lowercase folding: for a
readable row, a critical_sev alert is appended exactly when the lowercase
folding of its severity (a null severity reads as "") equals "critical";
in particular a null severity produces no critical_sev alert. -/
theorem c10_critical_lowercase_fold (st : DBState) (now : Int) (lid : Nat) (row : LogRecord)
    (hfind : findLog st.logs lid = some row) :
    ((run_detection_on_log st now lid).alerts.filter (isRule "critical_sev") =
      st.alerts.filter (isRule "critical_sev") ++
        (if lowerStr (row.severity.getD "") = "critical" then
          [⟨lid, now, "critical_sev", "Critical",
            "Critical event: " ++ lowerStr (row.event_type.getD "") ++ " from " ++
              pyOptStr row.src_ip⟩]
         else [])) ∧
    (row.severity = none →
      (run_detection_on_log st now lid).alerts.filter (isRule "critical_sev") =
        st.alerts.filter (isRule "critical_sev")) := by
  have key : (run_detection_on_log st now lid).alerts.filter (isRule "critical_sev") =
      st.alerts.filter (isRule "critical_sev") ++
        (if lowerStr (row.severity.getD "") = "critical" then
          [⟨lid, now, "critical_sev", "Critical",
            "Critical event: " ++ lowerStr (row.event_type.getD "") ++ " from " ++
              pyOptStr row.src_ip⟩]
         else []) := by
    rw [detection_crit_filter st now lid row hfind]
    unfold critAlertsOf
    congr 1
    by_cases hc : lowerStr (row.severity.getD "") = "critical"
    · rw [if_pos (beq_iff_eq.mpr hc), if_pos hc]
    · rw [if_neg (by simpa using hc), if_neg hc]
  refine ⟨key, fun hn => ?_⟩
  rw [key, hn]
  rw [if_neg (by decide)]
  simp

/-- C10 witness data: a log whose severity string is "CRITICAL". -/
def c10St : DBState :=
  ⟨[⟨1, 0, some "Auth", some "Anomaly", some "CRITICAL", none, none, none⟩], [], [], [], 2⟩

/-- C10 witness: severity "CRITICAL" fires the rule at a concrete input. -/
theorem c10_critical_lowercase_fold_witness :
    (run_detection_on_log c10St 3 1).alerts.filter (isRule "critical_sev") =
      [⟨1, 3, "critical_sev", "Critical", "Critical event: anomaly from None"⟩] := by
  have h := (c10_critical_lowercase_fold c10St 3 1
    ⟨1, 0, some "Auth", some "Anomaly", some "CRITICAL", none, none, none⟩ (by rfl)).1
  rw [h]
  decide

/-- C1 data: one of five failed-login logs from one ip, timestamp 400. -/
def c1LogStale (i : Nat) : LogRecord :=
  ⟨i, 400, some "Web Server", some "Failed Login", some "Medium",
   some "Failed login admin", some "9.9.9.9", none⟩

/-- C1 data: five matching logs 300 s old at detection time 700 — inside a
10-minute window, outside the 2-minute one. -/
def c1StaleSt : DBState :=
  ⟨[c1LogStale 1, c1LogStale 2, c1LogStale 3, c1LogStale 4, c1LogStale 5],
   [], [], [], 6⟩

/-- C1 data: one of five failed-login logs from one ip, timestamp 700. -/
def c1FreshLog (i : Nat) : LogRecord :=
  ⟨i, 700, some "Web Server", some "Failed Login", some "Medium",
   some "Failed login admin", some "9.9.9.9", none⟩

/-- C1 data: five matching logs at the detection instant 700. -/
def c1FreshSt : DBState :=
  ⟨[c1FreshLog 1, c1FreshLog 2, c1FreshLog 3, c1FreshLog 4, c1FreshLog 5],
   [], [], [], 6⟩

/-- C1 counterexample: (a) five events from one src_ip matching /fail|login/i
lie within the claimed 10-minute window (timestamps 400, now 700), yet the
detection run on the fifth appends no brute_force alert, because the code
uses a 2-minute window; (b) when the five events are recent enough to fire,
the emitted message is "5 failed/login events from 9.9.9.9 in 2 minutes",
not the claimed "5 events from 9.9.9.9 in last 10 minutes". -/
theorem c1_counterexample :
    ((c1StaleSt.logs.filter (fun r =>
        r.src_ip == some "9.9.9.9" && decide ((700 - 600 : Int) ≤ r.timestamp) &&
          isFailOrLogin r.event_type)).length = 5 ∧
      (run_detection_on_log c1StaleSt 700 5).alerts.filter (isRule "brute_force") = []) ∧
    ((run_detection_on_log c1FreshSt 700 5).alerts =
        [⟨5, 700, "brute_force", "Medium",
          "5 failed/login events from 9.9.9.9 in 2 minutes"⟩] ∧
      "5 failed/login events from 9.9.9.9 in 2 minutes" ≠
        "5 events from 9.9.9.9 in last 10 minutes") := by
  decide

/-- C1 (amended): for a readable row with a non-empty src_ip, the detection
run appends a brute_force alert (severity Medium) iff the count of
LogRecords with the same src_ip, timestamp within the last 2 minutes and
event_type containing "fail" or "login" (case-insensitive) is at least 5 —
the count includes the triggering row when it matches — and the message is
"{count} failed/login events from {src_ip} in 2 minutes". -/
theorem c1_amended_brute_force (st : DBState) (now : Int) (lid : Nat) (row : LogRecord)
    (ip : String) (hfind : findLog st.logs lid = some row)
    (hip : row.src_ip = some ip) (hne : ip ≠ "") :
    (run_detection_on_log st now lid).alerts.filter (isRule "brute_force") =
      st.alerts.filter (isRule "brute_force") ++
        (if 5 ≤ bruteForceCount st.logs ip (now - 120) then
          [⟨lid, now, "brute_force", "Medium",
            toString (bruteForceCount st.logs ip (now - 120)) ++
              " failed/login events from " ++ ip ++ " in 2 minutes"⟩]
         else []) := by
  rw [detection_bf_filter st now lid row hfind]
  unfold bfAlertsOf
  rw [hip]
  have ht : truthy (some ip) = true := by
    simp [truthy]
    exact hne
  rw [if_pos ht]
  simp

/-- C1 witness: the amended rule fires at the concrete five-fresh-logs input. -/
theorem c1_amended_brute_force_witness :
    (run_detection_on_log c1FreshSt 700 5).alerts.filter (isRule "brute_force") =
      [⟨5, 700, "brute_force", "Medium",
        "5 failed/login events from 9.9.9.9 in 2 minutes"⟩] := by
  have h := c1_amended_brute_force c1FreshSt 700 5 (c1FreshLog 5) "9.9.9.9"
    (by decide) (by decide) (by decide)
  rw [h]
  decide

/-- C2 data: a log whose event_type "Port Scan" contains "scan" (any case),
over empty packet and alert tables. -/
def c2ScanSt : DBState :=
  ⟨[⟨1, 0, some "Firewall", some "Port Scan", some "High", some "Scan detected",
     some "203.0.113.4", none⟩], [], [], [], 2⟩

/-- C2 counterexample: the event_type "Port Scan" does contain "scan"
case-insensitively, yet the detection run on that record appends no alert
at all — in particular no port_scan alert with message
"Port scan detected from 203.0.113.4" — because the code has no
type-heuristic port_scan rule. -/
theorem c2_counterexample :
    likeCI "Port Scan" "scan" = true ∧
    (run_detection_on_log c2ScanSt 0 1).alerts = [] := by
  decide

/-- C2 (amended): the code implements no type-heuristic port_scan rule: a
readable row whose event_type contains "scan" (case-insensitive) produces a
port_scan alert only via the packet heuristic, so when fewer than 10
distinct destination ports were seen from its src_ip in the last 60
seconds, no port_scan alert is appended for it. -/
theorem c2_amended_no_type_heuristic (st : DBState) (now : Int) (lid : Nat) (row : LogRecord)
    (hfind : findLog st.logs lid = some row)
    (_hscan : likeCI (row.event_type.getD "") "scan" = true)
    (hfew : distinctPortCount st.packets (row.src_ip.getD "") (now - 60) < 10) :
    (run_detection_on_log st now lid).alerts.filter (isRule "port_scan") =
      st.alerts.filter (isRule "port_scan") := by
  rw [detection_ps_filter st now lid row hfind]
  unfold psAlertsOf
  by_cases ht : truthy row.src_ip
  · rw [if_pos ht, if_neg (not_le.mpr hfew)]
    simp
  · rw [if_neg ht]
    simp

/-- C2 witness: at the concrete scan-labeled input, no port_scan alert. -/
theorem c2_amended_no_type_heuristic_witness :
    (run_detection_on_log c2ScanSt 0 1).alerts.filter (isRule "port_scan") = [] := by
  have h := c2_amended_no_type_heuristic c2ScanSt 0 1
    ⟨1, 0, some "Firewall", some "Port Scan", some "High", some "Scan detected",
     some "203.0.113.4", none⟩ (by decide) (by decide) (by decide)
  rw [h]
  decide

/-- C4: for a readable row with a non-empty src_ip, the detection run appends
a port_scan alert (severity High) iff the number of distinct dst_port values
among packets from that src_ip in the last 60 seconds is at least 10. -/
theorem c4_port_scan_packet_heuristic (st : DBState) (now : Int) (lid : Nat)
    (row : LogRecord) (ip : String) (hfind : findLog st.logs lid = some row)
    (hip : row.src_ip = some ip) (hne : ip ≠ "") :
    (run_detection_on_log st now lid).alerts.filter (isRule "port_scan") =
      st.alerts.filter (isRule "port_scan") ++
        (if 10 ≤ distinctPortCount st.packets ip (now - 60) then
          [⟨lid, now, "port_scan", "High",
            "Port scan: " ++ toString (distinctPortCount st.packets ip (now - 60)) ++
              " distinct dst ports from " ++ ip ++ " in 60s"⟩]
         else []) := by
  rw [detection_ps_filter st now lid row hfind]
  unfold psAlertsOf
  rw [hip]
  have ht : truthy (some ip) = true := by
    simp [truthy]
    exact hne
  rw [if_pos ht]
  simp

/-- C4 data: one packet from "7.7.7.7" to port `1000 + i` at time 90. -/
def c4Pkt (i : Int) : PacketRecord :=
  ⟨90, some "7.7.7.7", some "10.0.0.1", some "TCP", some (1000 + i), some 60⟩

/-- C4 data: a log from "7.7.7.7" over ten distinct-port packets inside the
60-second window (now = 100). -/
def c4TenSt : DBState :=
  ⟨[⟨1, 100, some "Firewall", some "Anomaly", some "Low", none, some "7.7.7.7", none⟩],
   [], [c4Pkt 0, c4Pkt 1, c4Pkt 2, c4Pkt 3, c4Pkt 4, c4Pkt 5, c4Pkt 6, c4Pkt 7,
        c4Pkt 8, c4Pkt 9], [], 2⟩

/-- C4 data: the same log over only nine distinct-port packets. -/
def c4NineSt : DBState :=
  ⟨[⟨1, 100, some "Firewall", some "Anomaly", some "Low", none, some "7.7.7.7", none⟩],
   [], [c4Pkt 0, c4Pkt 1, c4Pkt 2, c4Pkt 3, c4Pkt 4, c4Pkt 5, c4Pkt 6, c4Pkt 7,
        c4Pkt 8], [], 2⟩

/-- C4 witness: ten distinct ports inside the window fire the rule; nine do
not, at concrete inputs. -/
theorem c4_port_scan_packet_heuristic_witness :
    ((run_detection_on_log c4TenSt 100 1).alerts.filter (isRule "port_scan") =
      [⟨1, 100, "port_scan", "High",
        "Port scan: 10 distinct dst ports from 7.7.7.7 in 60s"⟩]) ∧
    (run_detection_on_log c4NineSt 100 1).alerts.filter (isRule "port_scan") = [] := by
  constructor
  · have h := c4_port_scan_packet_heuristic c4TenSt 100 1
      ⟨1, 100, some "Firewall", some "Anomaly", some "Low", none, some "7.7.7.7", none⟩
      "7.7.7.7" (by decide) (by decide) (by decide)
    rw [h]
    decide
  · have h := c4_port_scan_packet_heuristic c4NineSt 100 1
      ⟨1, 100, some "Firewall", some "Anomaly", some "Low", none, some "7.7.7.7", none⟩
      "7.7.7.7" (by decide) (by decide) (by decide)
    rw [h]
    decide

theorem run_detection_logs (st : DBState) (now : Int) (lid : Nat) :
    (run_detection_on_log st now lid).logs = st.logs := by
  cases h : findLog st.logs lid with
  | none => rw [run_detection_not_found st now lid h]
  | some row => rw [run_detection_found st now lid row h]

theorem run_detection_packets (st : DBState) (now : Int) (lid : Nat) :
    (run_detection_on_log st now lid).packets = st.packets := by
  cases h : findLog st.logs lid with
  | none => rw [run_detection_not_found st now lid h]
  | some row => rw [run_detection_found st now lid row h]

theorem run_detection_threat_intel (st : DBState) (now : Int) (lid : Nat) :
    (run_detection_on_log st now lid).threat_intel = st.threat_intel := by
  cases h : findLog st.logs lid with
  | none => rw [run_detection_not_found st now lid h]
  | some row => rw [run_detection_found st now lid row h]

theorem run_detection_nextLogId (st : DBState) (now : Int) (lid : Nat) :
    (run_detection_on_log st now lid).nextLogId = st.nextLogId := by
  cases h : findLog st.logs lid with
  | none => rw [run_detection_not_found st now lid h]
  | some row => rw [run_detection_found st now lid row h]

/-- C8: detection output does not read the threat_intel table: two states
that agree on logs, alerts and packets — whatever their threat-intel
mappings — yield exactly the same alert table after the detection run. -/
theorem c8_threat_intel_independent (st1 st2 : DBState) (now : Int) (lid : Nat)
    (hlogs : st1.logs = st2.logs) (halerts : st1.alerts = st2.alerts)
    (hpkts : st1.packets = st2.packets) :
    (run_detection_on_log st1 now lid).alerts = (run_detection_on_log st2 now lid).alerts := by
  cases h : findLog st1.logs lid with
  | none =>
    rw [run_detection_not_found st1 now lid h,
        run_detection_not_found st2 now lid (by rw [← hlogs]; exact h)]
    exact halerts
  | some row =>
    rw [run_detection_found st1 now lid row h,
        run_detection_found st2 now lid row (by rw [← hlogs]; exact h)]
    simp [hlogs, halerts, hpkts]

/-- C8 witness data: a critical failed-login log, parameterized by the
threat-intel table contents. -/
def c8SeedSt (ti : List ThreatIntelEntry) : DBState :=
  ⟨[⟨1, 0, some "IDS", some "Failed Login", some "Critical", none,
     some "192.0.2.45", none⟩], [], [], ti, 2⟩

/-- C8 witness: a populated and an empty threat-intel table give the same
alerts at a concrete input. -/
theorem c8_threat_intel_independent_witness :
    (run_detection_on_log (c8SeedSt [⟨"192.0.2.45", "demo-malicious"⟩]) 0 1).alerts =
      (run_detection_on_log (c8SeedSt []) 0 1).alerts :=
  c8_threat_intel_independent (c8SeedSt [⟨"192.0.2.45", "demo-malicious"⟩])
    (c8SeedSt []) 0 1 rfl rfl rfl

theorem ingestOne_fst_logs (st : DBState) (now : Int) (r : InputRecord) :
    (ingestOne st now r).1.logs = st.logs ++ [recordToLog r st.nextLogId now] := by
  simp [ingestOne, appendLog, run_detection_logs]

theorem ingestOne_fst_nextLogId (st : DBState) (now : Int) (r : InputRecord) :
    (ingestOne st now r).1.nextLogId = st.nextLogId + 1 := by
  simp [ingestOne, appendLog, run_detection_nextLogId]

theorem ingestOne_snd (st : DBState) (now : Int) (r : InputRecord) :
    (ingestOne st now r).2 = st.nextLogId := rfl

theorem api_upload_go (now : Int) (rows : List InputRecord) (st : DBState)
    (acc : List Nat) :
    (rows.foldl (uploadStep now) (st, acc)).2 =
        acc ++ List.range' st.nextLogId rows.length ∧
    (rows.foldl (uploadStep now) (st, acc)).1.logs =
        st.logs ++ List.zipWith (fun r i => recordToLog r i now) rows
          (List.range' st.nextLogId rows.length) ∧
    (rows.foldl (uploadStep now) (st, acc)).1.nextLogId =
        st.nextLogId + rows.length := by
  induction rows generalizing st acc with
  | nil => simp
  | cons r rs ih =>
    have hstep : uploadStep now (st, acc) r =
        ((ingestOne st now r).1, acc ++ [st.nextLogId]) := by
      simp [uploadStep, ingestOne_snd]
    obtain ⟨h1, h2, h3⟩ := ih (ingestOne st now r).1 (acc ++ [st.nextLogId])
    refine ⟨?_, ?_, ?_⟩
    · rw [List.foldl_cons, hstep, h1, ingestOne_fst_nextLogId]
      simp [List.range'_succ]
    · rw [List.foldl_cons, hstep, h2, ingestOne_fst_logs, ingestOne_fst_nextLogId]
      simp [List.range'_succ]
    · rw [List.foldl_cons, hstep, h3, ingestOne_fst_nextLogId, List.length_cons]
      omega

theorem api_upload_spec (st : DBState) (now : Int) (rows : List InputRecord) :
    (api_upload st now rows).2 = List.range' st.nextLogId rows.length ∧
    (api_upload st now rows).1.logs =
        st.logs ++ List.zipWith (fun r i => recordToLog r i now) rows
          (List.range' st.nextLogId rows.length) ∧
    (api_upload st now rows).1.nextLogId = st.nextLogId + rows.length := by
  have h := api_upload_go now rows st []
  simpa [api_upload] using h

/-- C7: bulk ingestion appends and evaluates each array element in order;
the response lists the assigned ids in that same order (consecutive ids
starting at the store's next id); the stored rows are exactly the inputs
in order, and an element without a timestamp is stored with the current
instant `now` as its timestamp. -/
theorem c7_bulk_ingest_order (st : DBState) (now : Int) (rows : List InputRecord) :
    (api_upload st now rows).2 = List.range' st.nextLogId rows.length ∧
    (api_upload st now rows).1.logs =
        st.logs ++ List.zipWith (fun r i => recordToLog r i now) rows
          (List.range' st.nextLogId rows.length) ∧
    (∀ r : InputRecord, r.timestamp = none →
      ∀ i : Nat, (recordToLog r i now).timestamp = now) := by
  obtain ⟨h1, h2, _⟩ := api_upload_spec st now rows
  refine ⟨h1, h2, fun r hr i => ?_⟩
  simp [recordToLog, hr]

/-- C7 witness data: three input records, the first and third lacking a
timestamp. -/
def c7RowNoTs : InputRecord :=
  ⟨none, some "Firewall", some "Anomaly", some "Low", some "m1", none, none⟩

/-- C7 witness data: an input record with an explicit timestamp. -/
def c7RowTs : InputRecord :=
  ⟨some 50, some "Auth", some "Login Success", some "Low", some "m2", none, none⟩

/-- C7 witness: bulk-ingesting three records into the fresh store returns
ids 1, 2, 3 in order, persists three rows in order, and defaults the
missing timestamps to the current instant 77. -/
theorem c7_bulk_ingest_order_witness :
    (api_upload initialState 77 [c7RowNoTs, c7RowTs, c7RowNoTs]).2 = [1, 2, 3] ∧
    (api_upload initialState 77 [c7RowNoTs, c7RowTs, c7RowNoTs]).1.logs =
      [recordToLog c7RowNoTs 1 77, recordToLog c7RowTs 2 77, recordToLog c7RowNoTs 3 77] ∧
    (recordToLog c7RowNoTs 1 77).timestamp = 77 := by
  obtain ⟨h1, h2, h3⟩ := c7_bulk_ingest_order initialState 77 [c7RowNoTs, c7RowTs, c7RowNoTs]
  refine ⟨?_, ?_, h3 c7RowNoTs rfl 1⟩
  · rw [h1]; decide
  · rw [h2]; rfl

/-- C5 data: an input record missing every field. -/
def c5EmptyRec : InputRecord := ⟨none, none, none, none, none, none, none⟩

/-- C5 counterexample: a record missing all four required ingestion fields
(source, event_type, severity, message) is nonetheless stored — a LogRecord
with NULL fields is appended and its id is reported to the caller — so
ingestion does not reject malformed records. -/
theorem c5_counterexample :
    (api_upload initialState 0 [c5EmptyRec]).1.logs =
      [⟨1, 0, none, none, none, none, none, none⟩] ∧
    (api_upload initialState 0 [c5EmptyRec]).2 = [1] := by
  decide

/-- C5 (amended): ingestion performs no per-record validation: a record
missing the required fields source, event_type, severity and message is
still appended to the Event Store, with those columns NULL, and its
assigned id is returned; no error is surfaced for missing fields. -/
theorem c5_amended_no_validation (st : DBState) (now : Int) (r : InputRecord)
    (hs : r.source = none) (he : r.event_type = none) (hv : r.severity = none)
    (hm : r.message = none) :
    (api_upload st now [r]).1.logs =
      st.logs ++ [⟨st.nextLogId, r.timestamp.getD now, none, none, none, none,
        r.src_ip, r.country⟩] ∧
    (api_upload st now [r]).2 = [st.nextLogId] := by
  obtain ⟨h1, h2, _⟩ := api_upload_spec st now [r]
  constructor
  · rw [h2]
    simp [recordToLog, hs, he, hv, hm, List.range'_succ]
  · rw [h1]
    simp [List.range'_succ]

/-- C5 witness: the amended statement at the all-missing record over the
fresh store. -/
theorem c5_amended_no_validation_witness :
    (api_upload initialState 9 [c5EmptyRec]).1.logs =
      [⟨1, 9, none, none, none, none, none, none⟩] ∧
    (api_upload initialState 9 [c5EmptyRec]).2 = [1] := by
  obtain ⟨h1, h2⟩ := c5_amended_no_validation initialState 9 c5EmptyRec rfl rfl rfl rfl
  exact ⟨by rw [h1]; rfl, by rw [h2]; rfl⟩

/-- Referential invariant: every alert's log_id is the id of a stored log. -/
def alertRefsOK (st : DBState) : Prop :=
  ∀ a ∈ st.alerts, ∃ r ∈ st.logs, r.id = a.log_id

theorem critAlertsOf_log_id (row : LogRecord) (now : Int) (lid : Nat) (a : AlertRecord)
    (ha : a ∈ critAlertsOf row now lid) : a.log_id = lid := by
  unfold critAlertsOf at ha
  split at ha
  · simp at ha
    simp [ha]
  · simp at ha

theorem bfAlertsOf_log_id (logs : List LogRecord) (row : LogRecord) (now : Int) (lid : Nat)
    (a : AlertRecord) (ha : a ∈ bfAlertsOf logs row now lid) : a.log_id = lid := by
  unfold bfAlertsOf at ha
  split at ha
  · split at ha
    · simp at ha
      simp [ha]
    · simp at ha
  · simp at ha

theorem psAlertsOf_log_id (packets : List PacketRecord) (row : LogRecord) (now : Int)
    (lid : Nat) (a : AlertRecord) (ha : a ∈ psAlertsOf packets row now lid) :
    a.log_id = lid := by
  unfold psAlertsOf at ha
  split at ha
  · split at ha
    · simp at ha
      simp [ha]
    · simp at ha
  · simp at ha

theorem alertRefsOK_run_detection (st : DBState) (now : Int) (lid : Nat)
    (h : alertRefsOK st) : alertRefsOK (run_detection_on_log st now lid) := by
  cases hf : findLog st.logs lid with
  | none =>
    rw [run_detection_not_found st now lid hf]
    exact h
  | some row =>
    have hrow : row ∈ st.logs := List.mem_of_find?_eq_some hf
    have hid : row.id = lid := by
      have := List.find?_some hf
      simpa using this
    rw [run_detection_found st now lid row hf]
    intro a ha
    simp only [List.append_assoc, List.mem_append] at ha
    rcases ha with ha | ha | ha | ha
    · obtain ⟨r, hr, hrid⟩ := h a ha
      exact ⟨r, hr, hrid⟩
    · exact ⟨row, hrow, by rw [hid, critAlertsOf_log_id row now lid a ha]⟩
    · exact ⟨row, hrow, by rw [hid, bfAlertsOf_log_id st.logs row now lid a ha]⟩
    · exact ⟨row, hrow, by rw [hid, psAlertsOf_log_id st.packets row now lid a ha]⟩

theorem alertRefsOK_appendLog (st : DBState) (r : InputRecord) (now : Int)
    (h : alertRefsOK st) : alertRefsOK (appendLog st r now).1 := by
  intro a ha
  obtain ⟨l, hl, hlid⟩ := h a ha
  exact ⟨l, List.mem_append_left _ hl, hlid⟩

theorem alertRefsOK_ingestOne (st : DBState) (now : Int) (r : InputRecord)
    (h : alertRefsOK st) : alertRefsOK (ingestOne st now r).1 :=
  alertRefsOK_run_detection _ now _ (alertRefsOK_appendLog st r now h)

theorem alertRefsOK_upload_go (now : Int) (rows : List InputRecord) (st : DBState)
    (acc : List Nat) (h : alertRefsOK st) :
    alertRefsOK (rows.foldl (uploadStep now) (st, acc)).1 := by
  induction rows generalizing st acc with
  | nil => simpa using h
  | cons r rs ih =>
    rw [List.foldl_cons]
    have hstep : uploadStep now (st, acc) r =
        ((ingestOne st now r).1, acc ++ [(ingestOne st now r).2]) := rfl
    rw [hstep]
    exact ih _ _ (alertRefsOK_ingestOne st now r h)

/-- C9: the referential invariant — every AlertRecord's log_id names a
LogRecord already in the Event Store — is preserved by the detection run,
by bulk ingestion, and by packet insertion; and the producer-side
operations (log append, packet insert) never create an alert themselves:
only the detection engine extends the alert table. -/
theorem c9_alert_reference_invariant :
    (∀ (st : DBState) (now : Int) (lid : Nat),
      alertRefsOK st → alertRefsOK (run_detection_on_log st now lid)) ∧
    (∀ (st : DBState) (now : Int) (rows : List InputRecord),
      alertRefsOK st → alertRefsOK (api_upload st now rows).1) ∧
    (∀ (st : DBState) (r : InputRecord) (now : Int),
      (appendLog st r now).1.alerts = st.alerts) ∧
    (∀ (st : DBState) (p : PacketRecord),
      (insertPacket st p).alerts = st.alerts ∧
        (alertRefsOK st → alertRefsOK (insertPacket st p))) := by
  refine ⟨alertRefsOK_run_detection,
          fun st now rows h => ?_,
          fun st r now => rfl,
          fun st p => ⟨rfl, fun h a ha => ?_⟩⟩
  · exact alertRefsOK_upload_go now rows st [] h
  · obtain ⟨l, hl, hlid⟩ := h a ha
    exact ⟨l, hl, hlid⟩

/-- C9 witness data: a critical log over an empty alert table. -/
def c9SeedSt : DBState :=
  ⟨[⟨1, 0, some "IDS", some "Malware Detected", some "Critical", none,
     some "192.0.2.45", none⟩], [], [], [], 2⟩

/-- C9 witness: the invariant holds after running detection on the concrete
seed state (whose alert table is empty, so the invariant holds before). -/
theorem c9_alert_reference_invariant_witness :
    alertRefsOK (run_detection_on_log c9SeedSt 0 1) :=
  c9_alert_reference_invariant.1 c9SeedSt 0 1
    (by intro a ha; simp [c9SeedSt] at ha)
